import Mathlib

/-!
Shallow embedding of `src/server.js`, an Express/Mongoose inventory and
billing backend.  The three MongoDB collections (User, Product, Purchase)
are modelled as Lean lists of records; each request handler becomes a pure
function from the request data and the current collection to a response
and the updated collection.  Mongoose persistence primitives
(`findOne`, `findByIdAndDelete`, `findOneAndDelete`, `findByIdAndUpdate`,
`save`) are modelled explicitly, including the unique index on
`Product.product_id` declared in the schema and MongoDB's invariant that
`_id` values are unique within a collection.
-/

namespace Server

/-- A stored User document (`userSchema`, all fields required). -/
structure UserRec where
  _id : String
  username : String
  email : String
  password : String
  phone : String
deriving DecidableEq, Repr

/-- A stored Product document (`productSchema`).  `type` and `rack` are
optional, `purchasePrice` defaults to 0 on creation.  Numbers are
modelled as `Int` (JS numbers in this app are used as integers). -/
structure ProductRec where
  _id : String
  product_id : String
  name : String
  type : Option String
  price : Int
  purchasePrice : Int
  quantity : Int
  rack : Option String
deriving DecidableEq, Repr

/-- The customer sub-document of `purchaseSchema` (all fields optional). -/
structure Customer where
  name : Option String
  place : Option String
  phone : Option String
  address : Option String
deriving DecidableEq, Repr

/-- A stored Purchase document (`purchaseSchema`).  The `products` array is
an unvalidated array of arbitrary line items, modelled by a type
parameter `α`.  `date` defaults to the creation time. -/
structure PurchaseRec (α : Type) where
  _id : String
  customer : Customer
  products : List α
  total : Int
  date : Int
deriving DecidableEq, Repr

/-- The JSON body of POST /api/purchases: `date` may be absent. -/
structure PurchaseBody (α : Type) where
  customer : Customer
  products : List α
  total : Int
  date : Option Int
deriving DecidableEq, Repr

/-- A user document as returned by GET /api/users: the projection
`{ password: 0 }` keeps every field except `password`. -/
structure UserView where
  _id : String
  username : String
  email : String
  phone : String
deriving DecidableEq, Repr

/-- A JSON response body: `{message: s}`, `{error: s}`, a message together
with the updated product, or the projected user list. -/
inductive Body where
  | msg : String → Body
  | err : String → Body
  | msgProduct : String → ProductRec → Body
  | userList : List UserView → Body
deriving DecidableEq, Repr

/-- An HTTP response: status code and JSON body. -/
structure Resp where
  status : Nat
  body : Body
deriving DecidableEq, Repr

/-! ### Handlers on the User collection -/

/-- POST /api/signup.  `User.findOne({$or:[{email},{username}]})`; reject
with 400 when a match exists, otherwise save the new user and answer 201.
`newId` is the storage-assigned `_id` of the created document. -/
def signup (users : List UserRec) (newId : String)
    (username email password phone : String) : Resp × List UserRec :=
  match users.find? (fun u => u.email == email || u.username == username) with
  | some _ => (⟨400, .msg "User already exists"⟩, users)
  | none =>
      (⟨201, .msg "Signup successful"⟩,
       users ++ [⟨newId, username, email, password, phone⟩])

/-- POST /api/login.  Look up by username; 400 when absent, 401 when the
stored password differs from the submitted one, 200 otherwise.  The
handler performs no write, so the collection is returned unchanged. -/
def login (users : List UserRec) (username password : String) :
    Resp × List UserRec :=
  match users.find? (fun u => u.username == username) with
  | none => (⟨400, .msg "User not found"⟩, users)
  | some u =>
      if u.password != password then (⟨401, .msg "Invalid credentials"⟩, users)
      else (⟨200, .msg "Login successful"⟩, users)

/-- GET /api/users.  `User.find({}, { password: 0 })`: every stored user,
with the password field projected away. -/
def getUsers (users : List UserRec) : Resp :=
  ⟨200, .userList (users.map fun u => ⟨u._id, u.username, u.email, u.phone⟩)⟩

/-! ### Mongoose primitives on the Product collection -/

/-- Model of `Product.findOne({ product_id: pid })`: the first document whose
`product_id` equals `pid`. -/
def findOneByProductId (store : List ProductRec) (pid : String) :
    Option ProductRec :=
  store.find? (fun p => p.product_id == pid)

/-- Model of `Product.findByIdAndDelete(i)`: remove the document whose `_id` is `i`
(the first such, `_id` being unique in MongoDB) and return it, or return
`none` leaving the collection unchanged. -/
def findByIdAndDelete : List ProductRec → String →
    Option ProductRec × List ProductRec
  | [], _ => (none, [])
  | p :: rest, i =>
      if p._id == i then (some p, rest)
      else
        let r := findByIdAndDelete rest i
        (r.1, p :: r.2)

/-- Model of `Product.findOneAndDelete({ product_id: pid })`: remove the first
document whose `product_id` is `pid` and return it. -/
def findOneAndDelete : List ProductRec → String →
    Option ProductRec × List ProductRec
  | [], _ => (none, [])
  | p :: rest, pid =>
      if p.product_id == pid then (some p, rest)
      else
        let r := findOneAndDelete rest pid
        (r.1, p :: r.2)

/-- Model of `product.save()` on a document loaded from the store: write `p` back
over the document with the same `_id` (the first such; `_id` is unique in
MongoDB, so this is the document `p` was loaded from). -/
def saveDoc : List ProductRec → ProductRec → List ProductRec
  | [], _ => []
  | q :: rest, p => if q._id == p._id then p :: rest else q :: saveDoc rest p

/-- Model of `newProduct.save()` for a freshly constructed Product: the schema's
`unique: true` index on `product_id` makes the write fail (a duplicate-key
error) when some stored document already has the same `product_id`;
otherwise the document is inserted. -/
def productSave (store : List ProductRec) (p : ProductRec) :
    Except String (List ProductRec) :=
  if store.any (fun q => q.product_id == p.product_id) then
    .error "E11000 duplicate key"
  else
    .ok (store ++ [p])

/-! ### Handlers on the Product collection -/

/-- POST /api/products.  Build a Product from the body (the schema fills
`purchasePrice` with 0 when absent) and save it; a duplicate `product_id`
surfaces as 500, success as 201 with a plain acknowledgement message. -/
def addProduct (store : List ProductRec) (newId : String)
    (product_id name : String) (type : Option String) (price : Int)
    (purchasePrice : Option Int) (quantity : Int) (rack : Option String) :
    Resp × List ProductRec :=
  match productSave store
      ⟨newId, product_id, name, type, price, purchasePrice.getD 0,
       quantity, rack⟩ with
  | .error _ => (⟨500, .err "Failed to add product"⟩, store)
  | .ok st => (⟨201, .msg "Product added successfully"⟩, st)

/-- DELETE /api/products/:id, first registration (line 110): delete by
MongoDB `_id`; 404 when no document has that `_id`. -/
def deleteProductByMongoId (store : List ProductRec) (i : String) :
    Resp × List ProductRec :=
  match findByIdAndDelete store i with
  | (none, st) => (⟨404, .msg "Product not found"⟩, st)
  | (some _, st) => (⟨200, .msg "Product deleted successfully"⟩, st)

/-- DELETE /api/products/:id, second registration (line 213): delete by
business key `product_id`; 404 when no document matches. -/
def deleteProductByProductId (store : List ProductRec) (pid : String) :
    Resp × List ProductRec :=
  match findOneAndDelete store pid with
  | (none, st) => (⟨404, .err "Product not found"⟩, st)
  | (some _, st) => (⟨200, .msg "Product removed successfully"⟩, st)

/-- The body of PUT /api/products/update/:id.  A `none` field was absent
(`undefined`) in the JSON body. -/
structure UpdateBody where
  quantity : Option Int
  name : Option String
  price : Option Int
  purchasePrice : Option Int
  type : Option String
  rack : Option String
deriving DecidableEq, Repr

/-- The update document built by the handler's destructuring
`{ quantity, name, price, purchasePrice = 0, type, rack }`: every field is
passed through except `purchasePrice`, whose destructuring default turns
an absent field into 0 (so it is always present in the update). -/
def updateOf (b : UpdateBody) : UpdateBody :=
  { b with purchasePrice := some (b.purchasePrice.getD 0) }

/-- Apply an update document to a stored product the way Mongoose's
`findByIdAndUpdate` does: keys whose value is `undefined` are stripped
from the update (the stored field is kept), present keys overwrite. -/
def applyUpdate (b : UpdateBody) (p : ProductRec) : ProductRec :=
  { p with
    quantity := b.quantity.getD p.quantity
    name := b.name.getD p.name
    price := b.price.getD p.price
    purchasePrice := b.purchasePrice.getD p.purchasePrice
    type := match b.type with | none => p.type | some v => some v
    rack := match b.rack with | none => p.rack | some v => some v }

/-- Model of `Product.findByIdAndUpdate(i, u, { new: true })`: update the document
whose `_id` is `i` with the update document `u` and return the updated
document, or `none` when no document has that `_id` (no upsert). -/
def findByIdAndUpdate : List ProductRec → String → UpdateBody →
    Option ProductRec × List ProductRec
  | [], _, _ => (none, [])
  | p :: rest, i, u =>
      if p._id == i then (some (applyUpdate u p), applyUpdate u p :: rest)
      else
        let r := findByIdAndUpdate rest i u
        (r.1, p :: r.2)

/-- PUT /api/products/update/:id (line 166): full-field update by `_id`.
404 when the document is absent, otherwise 200 with the updated record. -/
def updateProduct (store : List ProductRec) (i : String) (b : UpdateBody) :
    Resp × List ProductRec :=
  match findByIdAndUpdate store i (updateOf b) with
  | (none, st) => (⟨404, .err "Product not found"⟩, st)
  | (some p, st) =>
      (⟨200, .msgProduct "Product updated successfully" p⟩, st)

/-- PUT /api/products/:id (line 188): reduce the quantity of the product
with business key `product_id = pid` by `quantityToReduce`.  404 when
absent; 400 "Insufficient quantity" when `quantity < quantityToReduce`;
otherwise decrement and save. -/
def reduceQuantity (store : List ProductRec) (pid : String)
    (quantityToReduce : Int) : Resp × List ProductRec :=
  match findOneByProductId store pid with
  | none => (⟨404, .err "Product not found"⟩, store)
  | some product =>
      if product.quantity < quantityToReduce then
        (⟨400, .err "Insufficient quantity"⟩, store)
      else
        (⟨200, .msg "Quantity updated successfully"⟩,
         saveDoc store
           { product with quantity := product.quantity - quantityToReduce })

/-! ### Handlers on the Purchase collection -/

/-- POST /api/purchases.  `new Purchase(req.body)` keeps the schema fields
verbatim, the schema default fills `date` with the current time when the
body has none; the saved record is appended and 201 returned.  The
Product collection is not touched by this handler. -/
def savePurchase {α : Type} (purchases : List (PurchaseRec α))
    (newId : String) (now : Int) (b : PurchaseBody α) :
    Resp × List (PurchaseRec α) :=
  (⟨201, .msg "Purchase saved successfully"⟩,
   purchases ++ [⟨newId, b.customer, b.products, b.total, b.date.getD now⟩])

/-- GET /api/purchases: every stored purchase, unfiltered. -/
def getPurchases {α : Type} (purchases : List (PurchaseRec α)) :
    List (PurchaseRec α) :=
  purchases

/-! ### The Express router -/

/-- One segment of an Express route pattern: a literal or a `:name`
parameter. -/
inductive Seg where
  | lit : String → Seg
  | param : String → Seg
deriving DecidableEq, Repr

/-- A tag naming each registered handler, in source order. -/
inductive HandlerTag where
  | signupH
  | loginH
  | getUsersH
  | deleteByMongoIdH
  | addProductH
  | getProductsH
  | getPurchasesH
  | updateProductH
  | reduceQuantityH
  | deleteByProductIdH
  | savePurchaseH
deriving DecidableEq, Repr

/-- A registered route: method, path pattern, handler. -/
structure Route where
  method : String
  pattern : List Seg
  tag : HandlerTag
deriving DecidableEq, Repr

/-- Does an Express pattern match a concrete path (split into segments)?
Parameters match any single segment. -/
def matchPattern : List Seg → List String → Bool
  | [], [] => true
  | .lit s :: ps, x :: xs => s == x && matchPattern ps xs
  | .param _ :: ps, _ :: xs => matchPattern ps xs
  | _, _ => false

/-- The route table of `server.js`, in registration order. -/
def routes : List Route :=
  [⟨"POST", [.lit "api", .lit "signup"], .signupH⟩,
   ⟨"POST", [.lit "api", .lit "login"], .loginH⟩,
   ⟨"GET", [.lit "api", .lit "users"], .getUsersH⟩,
   ⟨"DELETE", [.lit "api", .lit "products", .param "id"], .deleteByMongoIdH⟩,
   ⟨"POST", [.lit "api", .lit "products"], .addProductH⟩,
   ⟨"GET", [.lit "api", .lit "products"], .getProductsH⟩,
   ⟨"GET", [.lit "api", .lit "purchases"], .getPurchasesH⟩,
   ⟨"PUT", [.lit "api", .lit "products", .lit "update", .param "id"],
    .updateProductH⟩,
   ⟨"PUT", [.lit "api", .lit "products", .param "id"], .reduceQuantityH⟩,
   ⟨"DELETE", [.lit "api", .lit "products", .param "id"],
    .deleteByProductIdH⟩,
   ⟨"POST", [.lit "api", .lit "purchases"], .savePurchaseH⟩]

/-- Express dispatch: the first registered route whose method and pattern
match the request handles it. -/
def dispatch (method : String) (path : List String) : Option HandlerTag :=
  (routes.find? (fun r => r.method == method && matchPattern r.pattern path)).map
    (fun r => r.tag)

/-- The whole persistence state: the three MongoDB collections. -/
structure DB (α : Type) where
  users : List UserRec
  products : List ProductRec
  purchases : List (PurchaseRec α)
deriving DecidableEq, Repr

/-- POST /api/purchases at the level of the whole database: the handler
performs its single write on the Purchase collection; the User and
Product collections are not touched (in particular no stock decrement). -/
def savePurchaseDB {α : Type} (db : DB α) (newId : String) (now : Int)
    (b : PurchaseBody α) : Resp × DB α :=
  let r := savePurchase db.purchases newId now b
  (r.1, { db with purchases := r.2 })

/-! ### Helper lemmas about `find?` and keyed lists -/

/-- A successful `find?` splits the list at the found element, with every
earlier element failing the predicate. -/
theorem find?_decomp {α : Type} (pred : α → Bool) :
    ∀ (l : List α) (p : α), l.find? pred = some p →
      ∃ l1 l2, l = l1 ++ p :: l2 ∧ pred p = true ∧ ∀ q ∈ l1, pred q = false := by
  intro l
  induction l with
  | nil => intro p h; simp at h
  | cons a as ih =>
      intro p h
      by_cases ha : pred a
      · rw [List.find?_cons_of_pos _ ha] at h
        obtain rfl : a = p := by simpa using h
        exact ⟨[], as, rfl, ha, by simp⟩
      · rw [List.find?_cons_of_neg _ ha] at h
        obtain ⟨l1, l2, rfl, hp, hl1⟩ := ih p h
        refine ⟨a :: l1, l2, rfl, hp, ?_⟩
        intro q hq
        rcases List.mem_cons.mp hq with rfl | hq
        · simpa using ha
        · exact hl1 q hq

/-- When the key map of a list has no duplicates, `find?` on the key of a
member returns exactly that member. -/
theorem find?_key_of_nodup {α β : Type} [BEq β] [LawfulBEq β] (f : α → β)
    (l : List α) (p : α) (hnd : (l.map f).Nodup) (hp : p ∈ l) :
    l.find? (fun q => f q == f p) = some p := by
  induction l with
  | nil => cases hp
  | cons a as ih =>
      simp only [List.map_cons, List.nodup_cons] at hnd
      rcases List.mem_cons.mp hp with rfl | hmem
      · exact List.find?_cons_of_pos _ (by simp)
      · have hne : ((fun q => f q == f p) a) = false := by
          simp only [beq_eq_false_iff_ne, ne_eq]
          intro h
          exact hnd.1 (h ▸ List.mem_map_of_mem f hmem)
        rw [List.find?_cons_of_neg _ (by simp [hne])]
        exact ih hnd.2 hmem

/-- In a list whose key map has no duplicates, no element left of `p`
shares `p`'s key. -/
theorem key_ne_of_nodup_left {α β : Type} (f : α → β) (l1 l2 : List α)
    (p : α) (hnd : ((l1 ++ p :: l2).map f).Nodup) :
    ∀ r ∈ l1, ¬ f r = f p := by
  intro r hr heq
  rw [List.map_append] at hnd
  rcases List.nodup_append.mp hnd with ⟨-, -, hdisj⟩
  exact hdisj (List.mem_map_of_mem f hr) (by simp [heq])

/-- A member of a store with duplicate-free `_id`s splits the store with
no earlier record sharing its `_id`. -/
theorem mem_id_decomp (store : List ProductRec) (p : ProductRec) (i : String)
    (hids : (store.map (fun r => r._id)).Nodup) (hp : p ∈ store)
    (hkey : p._id = i) :
    ∃ l1 l2, store = l1 ++ p :: l2 ∧ ∀ r ∈ l1, ¬ r._id = i := by
  have hfind := find?_key_of_nodup (fun r => r._id) store p hids hp
  simp only [hkey] at hfind
  obtain ⟨l1, l2, heq, -, hl1⟩ := find?_decomp _ store p hfind
  exact ⟨l1, l2, heq, fun r hr => by simpa using hl1 r hr⟩

/-! ### Characterizations of the persistence primitives -/

theorem findByIdAndDelete_of_not_mem (store : List ProductRec) (i : String)
    (h : ∀ r ∈ store, ¬ r._id = i) :
    findByIdAndDelete store i = (none, store) := by
  induction store with
  | nil => rfl
  | cons a as ih =>
      have ha : (a._id == i) = false := by
        simpa [beq_eq_false_iff_ne] using h a (List.mem_cons_self a as)
      simp [findByIdAndDelete, ha,
        ih (fun r hr => h r (List.mem_cons_of_mem a hr))]

theorem findByIdAndDelete_of_left (l1 l2 : List ProductRec) (p : ProductRec)
    (i : String) (hp : p._id = i) (h1 : ∀ r ∈ l1, ¬ r._id = i) :
    findByIdAndDelete (l1 ++ p :: l2) i = (some p, l1 ++ l2) := by
  induction l1 with
  | nil => simp [findByIdAndDelete, hp]
  | cons a as ih =>
      have ha : (a._id == i) = false := by
        simpa [beq_eq_false_iff_ne] using h1 a (List.mem_cons_self a as)
      simp [findByIdAndDelete, ha,
        ih (fun r hr => h1 r (List.mem_cons_of_mem a hr))]

theorem findOneAndDelete_of_not_mem (store : List ProductRec) (pid : String)
    (h : ∀ r ∈ store, ¬ r.product_id = pid) :
    findOneAndDelete store pid = (none, store) := by
  induction store with
  | nil => rfl
  | cons a as ih =>
      have ha : (a.product_id == pid) = false := by
        simpa [beq_eq_false_iff_ne] using h a (List.mem_cons_self a as)
      simp [findOneAndDelete, ha,
        ih (fun r hr => h r (List.mem_cons_of_mem a hr))]

theorem findOneAndDelete_of_left (l1 l2 : List ProductRec) (p : ProductRec)
    (pid : String) (hp : p.product_id = pid)
    (h1 : ∀ r ∈ l1, ¬ r.product_id = pid) :
    findOneAndDelete (l1 ++ p :: l2) pid = (some p, l1 ++ l2) := by
  induction l1 with
  | nil => simp [findOneAndDelete, hp]
  | cons a as ih =>
      have ha : (a.product_id == pid) = false := by
        simpa [beq_eq_false_iff_ne] using h1 a (List.mem_cons_self a as)
      simp [findOneAndDelete, ha,
        ih (fun r hr => h1 r (List.mem_cons_of_mem a hr))]

theorem saveDoc_of_left (l1 l2 : List ProductRec) (p n : ProductRec)
    (hn : n._id = p._id) (h1 : ∀ r ∈ l1, ¬ r._id = p._id) :
    saveDoc (l1 ++ p :: l2) n = l1 ++ n :: l2 := by
  induction l1 with
  | nil => simp [saveDoc, hn]
  | cons a as ih =>
      have ha : (a._id == n._id) = false := by
        rw [hn]
        simpa [beq_eq_false_iff_ne] using h1 a (List.mem_cons_self a as)
      simp [saveDoc, ha, ih (fun r hr => h1 r (List.mem_cons_of_mem a hr))]

theorem findByIdAndUpdate_of_not_mem (store : List ProductRec) (i : String)
    (u : UpdateBody) (h : ∀ r ∈ store, ¬ r._id = i) :
    findByIdAndUpdate store i u = (none, store) := by
  induction store with
  | nil => rfl
  | cons a as ih =>
      have ha : (a._id == i) = false := by
        simpa [beq_eq_false_iff_ne] using h a (List.mem_cons_self a as)
      simp [findByIdAndUpdate, ha,
        ih (fun r hr => h r (List.mem_cons_of_mem a hr))]

theorem findByIdAndUpdate_of_left (l1 l2 : List ProductRec) (p : ProductRec)
    (i : String) (u : UpdateBody) (hp : p._id = i)
    (h1 : ∀ r ∈ l1, ¬ r._id = i) :
    findByIdAndUpdate (l1 ++ p :: l2) i u =
      (some (applyUpdate u p), l1 ++ applyUpdate u p :: l2) := by
  induction l1 with
  | nil => simp [findByIdAndUpdate, hp]
  | cons a as ih =>
      have ha : (a._id == i) = false := by
        simpa [beq_eq_false_iff_ne] using h1 a (List.mem_cons_self a as)
      simp [findByIdAndUpdate, ha,
        ih (fun r hr => h1 r (List.mem_cons_of_mem a hr))]

/-! ### Behaviour of the quantity-reduce handler -/

theorem reduceQuantity_not_found (store : List ProductRec) (pid : String)
    (n : Int) (h : ∀ r ∈ store, ¬ r.product_id = pid) :
    reduceQuantity store pid n = (⟨404, .err "Product not found"⟩, store) := by
  have hfind : findOneByProductId store pid = none := by
    unfold findOneByProductId
    rw [List.find?_eq_none]
    intro x hx
    simpa using h x hx
  simp [reduceQuantity, hfind]

theorem reduceQuantity_found (store : List ProductRec) (pid : String)
    (p : ProductRec) (hpids : (store.map (fun r => r.product_id)).Nodup)
    (hp : p ∈ store) (hkey : p.product_id = pid) :
    findOneByProductId store pid = some p := by
  have h := find?_key_of_nodup (fun r => r.product_id) store p hpids hp
  simpa [findOneByProductId, hkey] using h

theorem reduceQuantity_insufficient (store : List ProductRec) (pid : String)
    (n : Int) (p : ProductRec)
    (hpids : (store.map (fun r => r.product_id)).Nodup)
    (hp : p ∈ store) (hkey : p.product_id = pid) (h : p.quantity < n) :
    reduceQuantity store pid n = (⟨400, .err "Insufficient quantity"⟩, store) := by
  simp [reduceQuantity, reduceQuantity_found store pid p hpids hp hkey, h]

theorem reduceQuantity_success (store : List ProductRec) (pid : String)
    (n : Int) (p : ProductRec)
    (hids : (store.map (fun r => r._id)).Nodup)
    (hpids : (store.map (fun r => r.product_id)).Nodup)
    (hp : p ∈ store) (hkey : p.product_id = pid) (h : n ≤ p.quantity) :
    ∃ l1 l2, store = l1 ++ p :: l2 ∧ (∀ q ∈ l1, ¬ q.product_id = pid) ∧
      reduceQuantity store pid n =
        (⟨200, .msg "Quantity updated successfully"⟩,
         l1 ++ { p with quantity := p.quantity - n } :: l2) := by
  have hfind := reduceQuantity_found store pid p hpids hp hkey
  obtain ⟨l1, l2, heq, -, hl1⟩ := find?_decomp _ store p hfind
  have hl1' : ∀ q ∈ l1, ¬ q.product_id = pid := by
    intro q hq
    simpa using hl1 q hq
  have hidsne : ∀ r ∈ l1, ¬ r._id = p._id :=
    key_ne_of_nodup_left (fun r => r._id) l1 l2 p (heq ▸ hids)
  have hnotlt : ¬ p.quantity < n := not_lt.mpr h
  have hsave : saveDoc store { p with quantity := p.quantity - n } =
      l1 ++ { p with quantity := p.quantity - n } :: l2 := by
    rw [heq]
    exact saveDoc_of_left l1 l2 p _ rfl hidsne
  exact ⟨l1, l2, heq, hl1', by simp [reduceQuantity, hfind, hnotlt, hsave]⟩

/-- C1: the quantity-reduce handler (PUT /api/products/:id) answers 404 and
leaves the store unchanged when no product carries the requested
`product_id`; answers 400 "Insufficient quantity" and leaves the store
unchanged when the matching product's quantity is below `quantityToReduce`;
and otherwise answers 200 and decrements exactly the matching product's
quantity by `quantityToReduce`, all its other fields and all other
products untouched.  The hypotheses record MongoDB's `_id` uniqueness and
the schema's unique index on `product_id`. -/
theorem quantity_reduce_spec (store : List ProductRec) (pid : String)
    (n : Int)
    (hids : (store.map (fun r => r._id)).Nodup)
    (hpids : (store.map (fun r => r.product_id)).Nodup) :
    ((∀ r ∈ store, ¬ r.product_id = pid) →
      reduceQuantity store pid n = (⟨404, .err "Product not found"⟩, store))
    ∧ (∀ p, p ∈ store → p.product_id = pid → p.quantity < n →
      reduceQuantity store pid n = (⟨400, .err "Insufficient quantity"⟩, store))
    ∧ (∀ p, p ∈ store → p.product_id = pid → n ≤ p.quantity →
      ∃ l1 l2, store = l1 ++ p :: l2 ∧
        reduceQuantity store pid n =
          (⟨200, .msg "Quantity updated successfully"⟩,
           l1 ++ { p with quantity := p.quantity - n } :: l2)) := by
  refine ⟨reduceQuantity_not_found store pid n, ?_, ?_⟩
  · intro p hp hkey h
    exact reduceQuantity_insufficient store pid n p hpids hp hkey h
  · intro p hp hkey h
    obtain ⟨l1, l2, heq, -, hred⟩ :=
      reduceQuantity_success store pid n p hids hpids hp hkey h
    exact ⟨l1, l2, heq, hred⟩

/-- Witness for C1 at the spec's concrete example: a product with
quantity 10; reducing by 10 gives 200 and quantity 0, reducing by 11
gives 400 with the store unchanged. -/
theorem quantity_reduce_spec_witness :
    (∃ l1 l2,
      [(⟨"id1", "p1", "Widget", none, 50, 30, 10, none⟩ : ProductRec)] =
        l1 ++ (⟨"id1", "p1", "Widget", none, 50, 30, 10, none⟩ : ProductRec) :: l2 ∧
      reduceQuantity [⟨"id1", "p1", "Widget", none, 50, 30, 10, none⟩] "p1" 10 =
        (⟨200, .msg "Quantity updated successfully"⟩,
         l1 ++ (⟨"id1", "p1", "Widget", none, 50, 30, 10 - 10, none⟩ : ProductRec) :: l2))
    ∧ reduceQuantity [⟨"id1", "p1", "Widget", none, 50, 30, 10, none⟩] "p1" 11 =
        (⟨400, .err "Insufficient quantity"⟩,
         [⟨"id1", "p1", "Widget", none, 50, 30, 10, none⟩]) := by
  constructor
  · exact (quantity_reduce_spec
      [⟨"id1", "p1", "Widget", none, 50, 30, 10, none⟩] "p1" 10
      (by decide) (by decide)).2.2
      ⟨"id1", "p1", "Widget", none, 50, 30, 10, none⟩
      (by decide) rfl (by decide)
  · exact (quantity_reduce_spec
      [⟨"id1", "p1", "Widget", none, 50, 30, 10, none⟩] "p1" 11
      (by decide) (by decide)).2.1
      ⟨"id1", "p1", "Widget", none, 50, 30, 10, none⟩
      (by decide) rfl (by decide)

/-- C9: the quantity-reduce handler places no lower bound on
`quantityToReduce`: any value at most the current quantity — negative
values included — passes the guard, the handler answers 200 and stores
`quantity - quantityToReduce`, so a negative `quantityToReduce` strictly
increases the stored quantity. -/
theorem quantity_reduce_no_lower_bound (store : List ProductRec)
    (pid : String) (n : Int) (p : ProductRec)
    (hids : (store.map (fun r => r._id)).Nodup)
    (hpids : (store.map (fun r => r.product_id)).Nodup)
    (hp : p ∈ store) (hkey : p.product_id = pid) (h : n ≤ p.quantity) :
    (reduceQuantity store pid n).1.status = 200
    ∧ (∃ l1 l2, store = l1 ++ p :: l2 ∧
        (reduceQuantity store pid n).2 =
          l1 ++ { p with quantity := p.quantity - n } :: l2)
    ∧ (n < 0 → p.quantity < p.quantity - n) := by
  obtain ⟨l1, l2, heq, -, hred⟩ :=
    reduceQuantity_success store pid n p hids hpids hp hkey h
  refine ⟨by rw [hred], ⟨l1, l2, heq, by rw [hred]⟩, fun hn => ?_⟩
  omega

/-- Witness for C9: reducing a quantity-5 product by −3 succeeds and the
stored quantity strictly increases (to 8). -/
theorem quantity_reduce_no_lower_bound_witness :
    (reduceQuantity [(⟨"id1", "p1", "Widget", none, 50, 30, 5, none⟩ : ProductRec)]
        "p1" (-3)).1.status = 200
    ∧ (∃ l1 l2,
        [(⟨"id1", "p1", "Widget", none, 50, 30, 5, none⟩ : ProductRec)] =
          l1 ++ (⟨"id1", "p1", "Widget", none, 50, 30, 5, none⟩ : ProductRec) :: l2 ∧
        (reduceQuantity [⟨"id1", "p1", "Widget", none, 50, 30, 5, none⟩]
            "p1" (-3)).2 =
          l1 ++ (⟨"id1", "p1", "Widget", none, 50, 30, 5 - (-3), none⟩ : ProductRec) :: l2)
    ∧ ((-3 : Int) < 0 →
        (⟨"id1", "p1", "Widget", none, 50, 30, 5, none⟩ : ProductRec).quantity <
          (⟨"id1", "p1", "Widget", none, 50, 30, 5, none⟩ : ProductRec).quantity - (-3)) :=
  quantity_reduce_no_lower_bound
    [⟨"id1", "p1", "Widget", none, 50, 30, 5, none⟩] "p1" (-3)
    ⟨"id1", "p1", "Widget", none, 50, 30, 5, none⟩
    (by decide) (by decide) (by decide) rfl (by decide)

/-! ### The shadowed delete route (C2) -/

/-- C2: both delete handlers are registered on the identical pattern
DELETE /api/products/:id, the by-`_id` handler first; Express dispatch
therefore always selects the by-`_id` handler, so the deleted record (or
the 404 decision) is determined solely by matching the path parameter
against `_id`: 404 with an unchanged store when no record has that `_id`,
otherwise deletion of exactly the record with that `_id`. -/
theorem delete_route_shadowing (x : String) (store : List ProductRec) :
    dispatch "DELETE" ["api", "products", x] = some HandlerTag.deleteByMongoIdH
    ∧ (routes.filter (fun r => r.method == "DELETE")).map
        (fun r => (r.pattern, r.tag)) =
      [([.lit "api", .lit "products", .param "id"], .deleteByMongoIdH),
       ([.lit "api", .lit "products", .param "id"], .deleteByProductIdH)]
    ∧ ((∀ r ∈ store, ¬ r._id = x) →
        deleteProductByMongoId store x = (⟨404, .msg "Product not found"⟩, store))
    ∧ (∀ l1 l2 p, store = l1 ++ p :: l2 → p._id = x →
        (∀ r ∈ l1, ¬ r._id = x) →
        deleteProductByMongoId store x =
          (⟨200, .msg "Product deleted successfully"⟩, l1 ++ l2)) := by
  refine ⟨rfl, rfl, ?_, ?_⟩
  · intro h
    simp [deleteProductByMongoId, findByIdAndDelete_of_not_mem store x h]
  · intro l1 l2 p heq hp hl1
    rw [heq]
    simp [deleteProductByMongoId, findByIdAndDelete_of_left l1 l2 p x hp hl1]

/-- Witness for C2: a DELETE on a concrete path dispatches to the
by-`_id` handler, and that handler deletes the record whose `_id`
matches the path parameter. -/
theorem delete_route_shadowing_witness :
    dispatch "DELETE" ["api", "products", "id1"] = some HandlerTag.deleteByMongoIdH
    ∧ deleteProductByMongoId
        [(⟨"id1", "p1", "Widget", none, 50, 30, 10, none⟩ : ProductRec)] "id1" =
      (⟨200, .msg "Product deleted successfully"⟩, ([] : List ProductRec) ++ []) :=
  ⟨(delete_route_shadowing "id1"
      [⟨"id1", "p1", "Widget", none, 50, 30, 10, none⟩]).1,
   (delete_route_shadowing "id1"
      [⟨"id1", "p1", "Widget", none, 50, 30, 10, none⟩]).2.2.2 [] []
      ⟨"id1", "p1", "Widget", none, 50, 30, 10, none⟩ rfl rfl (by simp)⟩

/-! ### Signup (C3) -/

/-- C3: signup answers 400 "User already exists" and adds no record when
some stored user matches the submitted username or email; otherwise it
persists exactly one new record and answers 201.  Consequently, after a
successful signup, any further signup sharing the username or the email
yields the conflict answer and leaves the collection unchanged. -/
theorem signup_spec (users : List UserRec)
    (newId username email password phone : String) :
    ((∃ u ∈ users, u.username = username ∨ u.email = email) →
      signup users newId username email password phone =
        (⟨400, .msg "User already exists"⟩, users))
    ∧ ((∀ u ∈ users, ¬ u.username = username ∧ ¬ u.email = email) →
      signup users newId username email password phone =
        (⟨201, .msg "Signup successful"⟩,
         users ++ [⟨newId, username, email, password, phone⟩]))
    ∧ (∀ newId2 username2 email2 password2 phone2,
      (signup users newId username email password phone).1.status = 201 →
      (username2 = username ∨ email2 = email) →
      signup (signup users newId username email password phone).2
          newId2 username2 email2 password2 phone2 =
        (⟨400, .msg "User already exists"⟩,
         (signup users newId username email password phone).2)) := by
  refine ⟨?_, ?_, ?_⟩
  · rintro ⟨u, hu, hcase⟩
    rcases hfind : users.find? (fun u => u.email == email || u.username == username)
      with - | v
    · have := List.find?_eq_none.mp hfind u hu
      rcases hcase with h | h <;> simp [h] at this
    · simp [signup, hfind]
  · intro h
    have hnone : users.find? (fun u => u.email == email || u.username == username)
        = none := by
      rw [List.find?_eq_none]
      intro x hx
      simpa [not_or] using And.symm (h x hx)
    simp [signup, hnone]
  · intro newId2 username2 email2 password2 phone2 h201 hshare
    have hnone : users.find? (fun u => u.email == email || u.username == username)
        = none := by
      rcases hfind : users.find?
          (fun u => u.email == email || u.username == username) with - | v
      · exact hfind
      · exact absurd h201 (by simp [signup, hfind])
    have husers2 : (signup users newId username email password phone).2 =
        users ++ [⟨newId, username, email, password, phone⟩] := by
      simp [signup, hnone]
    rw [husers2]
    rcases hfind2 : (users ++ [(⟨newId, username, email, password, phone⟩ : UserRec)]).find?
        (fun u => u.email == email2 || u.username == username2) with - | v
    · have := List.find?_eq_none.mp hfind2
        ⟨newId, username, email, password, phone⟩ (by simp)
      rcases hshare with h | h <;> simp [h] at this
    · simp [signup, hfind2]

/-- Witness for C3: a fresh signup succeeds, and signing up again with the
same username (fresh email) is rejected without adding a record. -/
theorem signup_spec_witness :
    signup [] "u1" "alice" "a@x.com" "pw" "123" =
      (⟨201, .msg "Signup successful"⟩,
       [⟨"u1", "alice", "a@x.com", "pw", "123"⟩])
    ∧ signup (signup [] "u1" "alice" "a@x.com" "pw" "123").2
        "u2" "alice" "b@x.com" "pw2" "456" =
      (⟨400, .msg "User already exists"⟩,
       (signup [] "u1" "alice" "a@x.com" "pw" "123").2) :=
  ⟨(signup_spec [] "u1" "alice" "a@x.com" "pw" "123").2.1 (by simp),
   (signup_spec [] "u1" "alice" "a@x.com" "pw" "123").2.2
     "u2" "alice" "b@x.com" "pw2" "456" (by decide) (Or.inl rfl)⟩

/-! ### Login (C4) -/

/-- C4: login answers 200 exactly when a stored user has the submitted
username and its stored password equals the submitted password by exact
string equality; it answers 400 "User not found" when no user has the
username, 401 "Invalid credentials" when the passwords differ, and it
never modifies the user collection.  The hypothesis records the unique
index on `username`. -/
theorem login_spec (users : List UserRec) (username password : String)
    (hnames : (users.map (fun u => u.username)).Nodup) :
    ((login users username password).1.status = 200 ↔
      ∃ u ∈ users, u.username = username ∧ u.password = password)
    ∧ ((∀ u ∈ users, ¬ u.username = username) →
      login users username password = (⟨400, .msg "User not found"⟩, users))
    ∧ (∀ u, u ∈ users → u.username = username → ¬ u.password = password →
      login users username password = (⟨401, .msg "Invalid credentials"⟩, users))
    ∧ (login users username password).2 = users := by
  have hfound : ∀ u, u ∈ users → u.username = username →
      users.find? (fun q => q.username == username) = some u := by
    intro u hu hname
    have h := find?_key_of_nodup (fun q => q.username) users u hnames hu
    simpa [hname] using h
  refine ⟨⟨?_, ?_⟩, ?_, ?_, ?_⟩
  · intro h200
    rcases hfind : users.find? (fun q => q.username == username) with - | u
    · simp [login, hfind] at h200
    · have hname : u.username = username := by
        simpa using List.find?_some hfind
      by_cases hpw : u.password = password
      · exact ⟨u, List.mem_of_find?_eq_some hfind, hname, hpw⟩
      · simp [login, hfind, hpw] at h200
  · rintro ⟨u, hu, hname, hpw⟩
    simp [login, hfound u hu hname, hpw]
  · intro h
    have hnone : users.find? (fun q => q.username == username) = none := by
      rw [List.find?_eq_none]
      intro x hx
      simpa using h x hx
    simp [login, hnone]
  · intro u hu hname hpw
    simp [login, hfound u hu hname, hpw]
  · rcases hfind : users.find? (fun q => q.username == username) with - | u
    · simp [login, hfind]
    · by_cases hpw : u.password = password <;> simp [login, hfind, hpw]

/-- Witness for C4: correct credentials answer 200, a wrong password
answers 401, and the collection is returned unchanged. -/
theorem login_spec_witness :
    (login [(⟨"u1", "alice", "a@x.com", "pw", "123"⟩ : UserRec)]
        "alice" "pw").1.status = 200
    ∧ login [(⟨"u1", "alice", "a@x.com", "pw", "123"⟩ : UserRec)] "alice" "bad" =
        (⟨401, .msg "Invalid credentials"⟩,
         [⟨"u1", "alice", "a@x.com", "pw", "123"⟩])
    ∧ (login [(⟨"u1", "alice", "a@x.com", "pw", "123"⟩ : UserRec)]
        "alice" "pw").2 = [⟨"u1", "alice", "a@x.com", "pw", "123"⟩] :=
  ⟨(login_spec [⟨"u1", "alice", "a@x.com", "pw", "123"⟩] "alice" "pw"
      (by decide)).1.mpr
    ⟨⟨"u1", "alice", "a@x.com", "pw", "123"⟩, by simp, rfl, rfl⟩,
   (login_spec [⟨"u1", "alice", "a@x.com", "pw", "123"⟩] "alice" "bad"
      (by decide)).2.2.1
    ⟨"u1", "alice", "a@x.com", "pw", "123"⟩ (by simp) rfl (by decide),
   (login_spec [⟨"u1", "alice", "a@x.com", "pw", "123"⟩] "alice" "pw"
      (by decide)).2.2.2⟩

/-! ### Full-replace product update (C5, C10) -/

/-- C5: the full-replace update (PUT /api/products/update/:id) answers 404
and neither creates nor modifies any record when no record has the given
internal identifier; otherwise it replaces quantity, name, price,
purchasePrice (the body value, or 0 when the body omits it), type and
rack on the matching record, returns the updated record, and leaves
`product_id` and `_id` unchanged, as well as every other record. -/
theorem update_product_spec (store : List ProductRec) (i : String)
    (b : UpdateBody) (hids : (store.map (fun r => r._id)).Nodup) :
    ((∀ r ∈ store, ¬ r._id = i) →
      updateProduct store i b = (⟨404, .err "Product not found"⟩, store))
    ∧ (∀ p qv nv pv tv rv, p ∈ store → p._id = i →
      b.quantity = some qv → b.name = some nv → b.price = some pv →
      b.type = some tv → b.rack = some rv →
      ∃ l1 l2, store = l1 ++ p :: l2 ∧
        updateProduct store i b =
          (⟨200, .msgProduct "Product updated successfully"
             (applyUpdate (updateOf b) p)⟩,
           l1 ++ applyUpdate (updateOf b) p :: l2)
        ∧ (applyUpdate (updateOf b) p).quantity = qv
        ∧ (applyUpdate (updateOf b) p).name = nv
        ∧ (applyUpdate (updateOf b) p).price = pv
        ∧ (applyUpdate (updateOf b) p).purchasePrice = b.purchasePrice.getD 0
        ∧ (applyUpdate (updateOf b) p).type = some tv
        ∧ (applyUpdate (updateOf b) p).rack = some rv
        ∧ (applyUpdate (updateOf b) p).product_id = p.product_id
        ∧ (applyUpdate (updateOf b) p)._id = p._id) := by
  constructor
  · intro h
    simp [updateProduct, findByIdAndUpdate_of_not_mem store i (updateOf b) h]
  · intro p qv nv pv tv rv hp hkey hq hn hpr ht hr
    obtain ⟨l1, l2, heq, hl1⟩ := mem_id_decomp store p i hids hp hkey
    refine ⟨l1, l2, heq, ?_, ?_, ?_, ?_, ?_, ?_, ?_, rfl, rfl⟩
    · rw [heq]
      simp [updateProduct, findByIdAndUpdate_of_left l1 l2 p i (updateOf b) hkey hl1]
    · simp [applyUpdate, updateOf, hq]
    · simp [applyUpdate, updateOf, hn]
    · simp [applyUpdate, updateOf, hpr]
    · simp [applyUpdate, updateOf]
    · simp [applyUpdate, updateOf, ht]
    · simp [applyUpdate, updateOf, hr]

/-- Witness for C5: updating a nonexistent identifier answers 404 and
changes nothing, and a full-body update on an existing record replaces
its fields while keeping `product_id` and `_id`. -/
theorem update_product_spec_witness :
    updateProduct [(⟨"id1", "p1", "Widget", none, 50, 30, 10, none⟩ : ProductRec)]
        "missing" ⟨some 7, some "Gadget", some 60, some 40, some "tool", some "R2"⟩ =
      (⟨404, .err "Product not found"⟩,
       [⟨"id1", "p1", "Widget", none, 50, 30, 10, none⟩])
    ∧ ∃ l1 l2,
      [(⟨"id1", "p1", "Widget", none, 50, 30, 10, none⟩ : ProductRec)] =
        l1 ++ (⟨"id1", "p1", "Widget", none, 50, 30, 10, none⟩ : ProductRec) :: l2 ∧
      updateProduct [(⟨"id1", "p1", "Widget", none, 50, 30, 10, none⟩ : ProductRec)]
          "id1" ⟨some 7, some "Gadget", some 60, some 40, some "tool", some "R2"⟩ =
        (⟨200, .msgProduct "Product updated successfully"
           (applyUpdate (updateOf ⟨some 7, some "Gadget", some 60, some 40,
              some "tool", some "R2"⟩)
              ⟨"id1", "p1", "Widget", none, 50, 30, 10, none⟩)⟩,
         l1 ++ applyUpdate (updateOf ⟨some 7, some "Gadget", some 60, some 40,
              some "tool", some "R2"⟩)
              ⟨"id1", "p1", "Widget", none, 50, 30, 10, none⟩ :: l2)
      ∧ (applyUpdate (updateOf ⟨some 7, some "Gadget", some 60, some 40,
           some "tool", some "R2"⟩)
           (⟨"id1", "p1", "Widget", none, 50, 30, 10, none⟩ : ProductRec)).quantity = 7
      ∧ (applyUpdate (updateOf ⟨some 7, some "Gadget", some 60, some 40,
           some "tool", some "R2"⟩)
           (⟨"id1", "p1", "Widget", none, 50, 30, 10, none⟩ : ProductRec)).name = "Gadget"
      ∧ (applyUpdate (updateOf ⟨some 7, some "Gadget", some 60, some 40,
           some "tool", some "R2"⟩)
           (⟨"id1", "p1", "Widget", none, 50, 30, 10, none⟩ : ProductRec)).price = 60
      ∧ (applyUpdate (updateOf ⟨some 7, some "Gadget", some 60, some 40,
           some "tool", some "R2"⟩)
           (⟨"id1", "p1", "Widget", none, 50, 30, 10, none⟩ : ProductRec)).purchasePrice =
          (some (40 : Int)).getD 0
      ∧ (applyUpdate (updateOf ⟨some 7, some "Gadget", some 60, some 40,
           some "tool", some "R2"⟩)
           (⟨"id1", "p1", "Widget", none, 50, 30, 10, none⟩ : ProductRec)).type = some "tool"
      ∧ (applyUpdate (updateOf ⟨some 7, some "Gadget", some 60, some 40,
           some "tool", some "R2"⟩)
           (⟨"id1", "p1", "Widget", none, 50, 30, 10, none⟩ : ProductRec)).rack = some "R2"
      ∧ (applyUpdate (updateOf ⟨some 7, some "Gadget", some 60, some 40,
           some "tool", some "R2"⟩)
           (⟨"id1", "p1", "Widget", none, 50, 30, 10, none⟩ : ProductRec)).product_id =
          (⟨"id1", "p1", "Widget", none, 50, 30, 10, none⟩ : ProductRec).product_id
      ∧ (applyUpdate (updateOf ⟨some 7, some "Gadget", some 60, some 40,
           some "tool", some "R2"⟩)
           (⟨"id1", "p1", "Widget", none, 50, 30, 10, none⟩ : ProductRec))._id =
          (⟨"id1", "p1", "Widget", none, 50, 30, 10, none⟩ : ProductRec)._id :=
  ⟨(update_product_spec [⟨"id1", "p1", "Widget", none, 50, 30, 10, none⟩]
      "missing" ⟨some 7, some "Gadget", some 60, some 40, some "tool", some "R2"⟩
      (by decide)).1 (by decide),
   (update_product_spec [⟨"id1", "p1", "Widget", none, 50, 30, 10, none⟩]
      "id1" ⟨some 7, some "Gadget", some 60, some 40, some "tool", some "R2"⟩
      (by decide)).2
     ⟨"id1", "p1", "Widget", none, 50, 30, 10, none⟩ 7 "Gadget" 60 "tool" "R2"
     (by decide) rfl rfl rfl rfl rfl rfl⟩

/-- C10: in the full-replace update, every updatable field other than
`purchasePrice` that is omitted from the body (`undefined` after
destructuring) is stripped from the update and thus left unchanged on
the stored record, whereas an omitted `purchasePrice` is turned into 0
by the destructuring default and always written, overwriting any stored
value. -/
theorem update_product_omitted_fields (store : List ProductRec) (i : String)
    (b : UpdateBody) (p : ProductRec)
    (hids : (store.map (fun r => r._id)).Nodup) (hp : p ∈ store)
    (hkey : p._id = i) :
    ∃ l1 l2, store = l1 ++ p :: l2 ∧
      (updateProduct store i b).2 = l1 ++ applyUpdate (updateOf b) p :: l2
      ∧ (b.quantity = none → (applyUpdate (updateOf b) p).quantity = p.quantity)
      ∧ (b.name = none → (applyUpdate (updateOf b) p).name = p.name)
      ∧ (b.price = none → (applyUpdate (updateOf b) p).price = p.price)
      ∧ (b.type = none → (applyUpdate (updateOf b) p).type = p.type)
      ∧ (b.rack = none → (applyUpdate (updateOf b) p).rack = p.rack)
      ∧ (b.purchasePrice = none →
          (applyUpdate (updateOf b) p).purchasePrice = 0) := by
  obtain ⟨l1, l2, heq, hl1⟩ := mem_id_decomp store p i hids hp hkey
  refine ⟨l1, l2, heq, ?_, ?_, ?_, ?_, ?_, ?_, ?_⟩
  · rw [heq]
    simp [updateProduct, findByIdAndUpdate_of_left l1 l2 p i (updateOf b) hkey hl1]
  · intro h; simp [applyUpdate, updateOf, h]
  · intro h; simp [applyUpdate, updateOf, h]
  · intro h; simp [applyUpdate, updateOf, h]
  · intro h; simp [applyUpdate, updateOf, h]
  · intro h; simp [applyUpdate, updateOf, h]
  · intro h; simp [applyUpdate, updateOf, h]

/-- Witness for C10: an empty update body leaves quantity, name, price,
type and rack of the stored record unchanged but zeroes its previously
set `purchasePrice`. -/
theorem update_product_omitted_fields_witness :
    ∃ l1 l2,
      [(⟨"id1", "p1", "Widget", some "tool", 50, 30, 10, some "R1"⟩ : ProductRec)] =
        l1 ++ (⟨"id1", "p1", "Widget", some "tool", 50, 30, 10, some "R1"⟩ : ProductRec) :: l2 ∧
      (updateProduct
          [(⟨"id1", "p1", "Widget", some "tool", 50, 30, 10, some "R1"⟩ : ProductRec)]
          "id1" ⟨none, none, none, none, none, none⟩).2 =
        l1 ++ applyUpdate (updateOf ⟨none, none, none, none, none, none⟩)
          (⟨"id1", "p1", "Widget", some "tool", 50, 30, 10, some "R1"⟩ : ProductRec) :: l2
      ∧ ((⟨none, none, none, none, none, none⟩ : UpdateBody).quantity = none →
          (applyUpdate (updateOf ⟨none, none, none, none, none, none⟩)
            (⟨"id1", "p1", "Widget", some "tool", 50, 30, 10, some "R1"⟩ : ProductRec)).quantity =
          (⟨"id1", "p1", "Widget", some "tool", 50, 30, 10, some "R1"⟩ : ProductRec).quantity)
      ∧ ((⟨none, none, none, none, none, none⟩ : UpdateBody).name = none →
          (applyUpdate (updateOf ⟨none, none, none, none, none, none⟩)
            (⟨"id1", "p1", "Widget", some "tool", 50, 30, 10, some "R1"⟩ : ProductRec)).name =
          (⟨"id1", "p1", "Widget", some "tool", 50, 30, 10, some "R1"⟩ : ProductRec).name)
      ∧ ((⟨none, none, none, none, none, none⟩ : UpdateBody).price = none →
          (applyUpdate (updateOf ⟨none, none, none, none, none, none⟩)
            (⟨"id1", "p1", "Widget", some "tool", 50, 30, 10, some "R1"⟩ : ProductRec)).price =
          (⟨"id1", "p1", "Widget", some "tool", 50, 30, 10, some "R1"⟩ : ProductRec).price)
      ∧ ((⟨none, none, none, none, none, none⟩ : UpdateBody).type = none →
          (applyUpdate (updateOf ⟨none, none, none, none, none, none⟩)
            (⟨"id1", "p1", "Widget", some "tool", 50, 30, 10, some "R1"⟩ : ProductRec)).type =
          (⟨"id1", "p1", "Widget", some "tool", 50, 30, 10, some "R1"⟩ : ProductRec).type)
      ∧ ((⟨none, none, none, none, none, none⟩ : UpdateBody).rack = none →
          (applyUpdate (updateOf ⟨none, none, none, none, none, none⟩)
            (⟨"id1", "p1", "Widget", some "tool", 50, 30, 10, some "R1"⟩ : ProductRec)).rack =
          (⟨"id1", "p1", "Widget", some "tool", 50, 30, 10, some "R1"⟩ : ProductRec).rack)
      ∧ ((⟨none, none, none, none, none, none⟩ : UpdateBody).purchasePrice = none →
          (applyUpdate (updateOf ⟨none, none, none, none, none, none⟩)
            (⟨"id1", "p1", "Widget", some "tool", 50, 30, 10, some "R1"⟩ : ProductRec)).purchasePrice = 0) :=
  update_product_omitted_fields
    [⟨"id1", "p1", "Widget", some "tool", 50, 30, 10, some "R1"⟩] "id1"
    ⟨none, none, none, none, none, none⟩
    ⟨"id1", "p1", "Widget", some "tool", 50, 30, 10, some "R1"⟩
    (by decide) (by decide) rfl

/-! ### Purchases (C6) -/

/-- C6: POST /api/purchases persists the body verbatim as exactly one new
purchase record (the schema default filling `date` with the server's
current time when the body carries none), answers 201, leaves the User
and Product collections untouched (no stock decrement), and the new
record is retrievable via list-purchases with the submitted total. -/
theorem save_purchase_spec {α : Type} (db : DB α) (newId : String)
    (now : Int) (b : PurchaseBody α) :
    (savePurchaseDB db newId now b).1 = ⟨201, .msg "Purchase saved successfully"⟩
    ∧ (savePurchaseDB db newId now b).2.purchases =
        db.purchases ++ [⟨newId, b.customer, b.products, b.total, b.date.getD now⟩]
    ∧ (savePurchaseDB db newId now b).2.products = db.products
    ∧ (savePurchaseDB db newId now b).2.users = db.users
    ∧ (b.date = none →
        (⟨newId, b.customer, b.products, b.total, now⟩ : PurchaseRec α) ∈
          getPurchases (savePurchaseDB db newId now b).2.purchases)
    ∧ (∃ rec ∈ getPurchases (savePurchaseDB db newId now b).2.purchases,
        rec.total = b.total ∧ rec.products = b.products
        ∧ rec.customer = b.customer) := by
  refine ⟨rfl, rfl, rfl, rfl, ?_, ?_⟩
  · intro h
    simp [savePurchaseDB, savePurchase, getPurchases, h]
  · exact ⟨⟨newId, b.customer, b.products, b.total, b.date.getD now⟩,
      by simp [savePurchaseDB, savePurchase, getPurchases], rfl, rfl, rfl⟩

/-- Witness for C6: recording a purchase with total 100 and no date stores
one record carrying the server time, and it shows up in list-purchases
with total 100. -/
theorem save_purchase_spec_witness :
    (savePurchaseDB (⟨[], [], []⟩ : DB Nat) "b1" 1700000000
        ⟨⟨some "Amal", none, none, none⟩, [1, 2], 100, none⟩).1 =
      ⟨201, .msg "Purchase saved successfully"⟩
    ∧ (savePurchaseDB (⟨[], [], []⟩ : DB Nat) "b1" 1700000000
        ⟨⟨some "Amal", none, none, none⟩, [1, 2], 100, none⟩).2.purchases =
      [] ++ [⟨"b1", ⟨some "Amal", none, none, none⟩, [1, 2], 100,
        (none : Option Int).getD 1700000000⟩]
    ∧ (savePurchaseDB (⟨[], [], []⟩ : DB Nat) "b1" 1700000000
        ⟨⟨some "Amal", none, none, none⟩, [1, 2], 100, none⟩).2.products = []
    ∧ (savePurchaseDB (⟨[], [], []⟩ : DB Nat) "b1" 1700000000
        ⟨⟨some "Amal", none, none, none⟩, [1, 2], 100, none⟩).2.users = []
    ∧ ((none : Option Int) = none →
        (⟨"b1", ⟨some "Amal", none, none, none⟩, [1, 2], 100, 1700000000⟩ :
            PurchaseRec Nat) ∈
          getPurchases (savePurchaseDB (⟨[], [], []⟩ : DB Nat) "b1" 1700000000
            ⟨⟨some "Amal", none, none, none⟩, [1, 2], 100, none⟩).2.purchases)
    ∧ (∃ rec ∈ getPurchases (savePurchaseDB (⟨[], [], []⟩ : DB Nat) "b1"
          1700000000 ⟨⟨some "Amal", none, none, none⟩, [1, 2], 100, none⟩).2.purchases,
        rec.total = 100 ∧ rec.products = [1, 2]
        ∧ rec.customer = ⟨some "Amal", none, none, none⟩) :=
  save_purchase_spec (⟨[], [], []⟩ : DB Nat) "b1" 1700000000
    ⟨⟨some "Amal", none, none, none⟩, [1, 2], 100, none⟩

/-! ### List users (C7) -/

/-- C7: GET /api/users returns one document per stored user, each the
password-free projection (the `UserView` type has no password field) that
keeps `_id`, username, email and phone. -/
theorem get_users_spec (users : List UserRec) :
    getUsers users =
      ⟨200, .userList (users.map fun u => ⟨u._id, u.username, u.email, u.phone⟩)⟩
    ∧ (users.map fun u =>
        (⟨u._id, u.username, u.email, u.phone⟩ : UserView)).length = users.length
    ∧ ∀ u ∈ users, (⟨u._id, u.username, u.email, u.phone⟩ : UserView) ∈
        users.map fun u => (⟨u._id, u.username, u.email, u.phone⟩ : UserView) := by
  refine ⟨rfl, users.length_map _, ?_⟩
  intro u hu
  exact List.mem_map_of_mem _ hu

/-- Witness for C7: on a two-user store the endpoint returns exactly the
two password-free projections. -/
theorem get_users_spec_witness :
    getUsers [⟨"u1", "alice", "a@x.com", "pw", "123"⟩,
              ⟨"u2", "bob", "b@x.com", "pw2", "456"⟩] =
      ⟨200, .userList [⟨"u1", "alice", "a@x.com", "123"⟩,
                       ⟨"u2", "bob", "b@x.com", "456"⟩]⟩
    ∧ ([(⟨"u1", "alice", "a@x.com", "pw", "123"⟩ : UserRec),
        ⟨"u2", "bob", "b@x.com", "pw2", "456"⟩].map fun u =>
          (⟨u._id, u.username, u.email, u.phone⟩ : UserView)).length = 2 :=
  ⟨(get_users_spec [⟨"u1", "alice", "a@x.com", "pw", "123"⟩,
      ⟨"u2", "bob", "b@x.com", "pw2", "456"⟩]).1,
   (get_users_spec [⟨"u1", "alice", "a@x.com", "pw", "123"⟩,
      ⟨"u2", "bob", "b@x.com", "pw2", "456"⟩]).2.1⟩

/-! ### Add product (C8) -/

/-- C8: POST /api/products fails with 500 (the persistence layer's
duplicate-key error on the unique `product_id` index) and does not grow
the collection when the submitted `product_id` already exists; with a
fresh `product_id` it persists exactly one new record (schema default 0
for an absent `purchasePrice`) and answers 201 with a plain success
message, not the created record. -/
theorem add_product_spec (store : List ProductRec)
    (newId product_id name : String) (type : Option String) (price : Int)
    (purchasePrice : Option Int) (quantity : Int) (rack : Option String) :
    ((∃ q ∈ store, q.product_id = product_id) →
      addProduct store newId product_id name type price purchasePrice quantity rack =
        (⟨500, .err "Failed to add product"⟩, store)
      ∧ (addProduct store newId product_id name type price purchasePrice
          quantity rack).2.length = store.length)
    ∧ ((∀ q ∈ store, ¬ q.product_id = product_id) →
      addProduct store newId product_id name type price purchasePrice quantity rack =
        (⟨201, .msg "Product added successfully"⟩,
         store ++ [⟨newId, product_id, name, type, price, purchasePrice.getD 0,
           quantity, rack⟩])) := by
  constructor
  · rintro ⟨q, hq, hkey⟩
    have hdup : store.any (fun r => r.product_id == product_id) = true := by
      rw [List.any_eq_true]
      exact ⟨q, hq, by simp [hkey]⟩
    constructor
    · simp [addProduct, productSave, hdup]
    · simp [addProduct, productSave, hdup]
  · intro h
    have hdup : store.any (fun r => r.product_id == product_id) = false := by
      rw [List.any_eq_false]
      intro q hq
      simpa using h q hq
    simp [addProduct, productSave, hdup]

/-- Witness for C8: re-adding `product_id` "p1" fails with 500 leaving one
record, and adding a fresh "p2" appends exactly one record and answers
201. -/
theorem add_product_spec_witness :
    (addProduct [(⟨"id1", "p1", "Widget", none, 50, 30, 10, none⟩ : ProductRec)]
        "id2" "p1" "Copy" none 60 none 5 none =
      (⟨500, .err "Failed to add product"⟩,
       [⟨"id1", "p1", "Widget", none, 50, 30, 10, none⟩])
      ∧ (addProduct [(⟨"id1", "p1", "Widget", none, 50, 30, 10, none⟩ : ProductRec)]
          "id2" "p1" "Copy" none 60 none 5 none).2.length =
        [(⟨"id1", "p1", "Widget", none, 50, 30, 10, none⟩ : ProductRec)].length)
    ∧ addProduct [(⟨"id1", "p1", "Widget", none, 50, 30, 10, none⟩ : ProductRec)]
        "id2" "p2" "Gadget" none 60 none 5 none =
      (⟨201, .msg "Product added successfully"⟩,
       [⟨"id1", "p1", "Widget", none, 50, 30, 10, none⟩] ++
        [⟨"id2", "p2", "Gadget", none, 60, (none : Option Int).getD 0, 5, none⟩]) :=
  ⟨(add_product_spec [⟨"id1", "p1", "Widget", none, 50, 30, 10, none⟩]
      "id2" "p1" "Copy" none 60 none 5 none).1
    ⟨⟨"id1", "p1", "Widget", none, 50, 30, 10, none⟩, by simp, rfl⟩,
   (add_product_spec [⟨"id1", "p1", "Widget", none, 50, 30, 10, none⟩]
      "id2" "p2" "Gadget" none 60 none 5 none).2 (by decide)⟩

end Server
